import Mathlib

/-!
Verification of the configuration-resolution and signal-handling layer of
falcoctl (cmd/root.go).

The embedding models:
  - the pflag flag set as a list of flags (name, default value, current
    value, changed marker), mirroring pflag.Flag;
  - the viper configuration store at its boundary: environment and
    configuration-file layers are association lists, and viper.GetString for
    a key bound with BindPFlags (after viper.SetDefault(name, DefValue) as
    initFlags does) follows viper's documented precedence, which the source
    itself restates in the doc comment of initFlags (root.go lines 171-177):
    explicitly-set flag, then environment, then config file, then default;
  - viper's environment-key derivation (SetEnvPrefix, AutomaticEnv,
    SetEnvKeyReplacer from initEnv): keys are lower-cased on entry, merged
    as ToUpper(prefix + "_" + key), then the replacer turns '-' into '_'.
    Character case mapping is the ASCII mapping (flag names are ASCII);
  - initFlags (root.go 178-189): skip excluded names, set the store default,
    and write the resolved value back via flags.Set exactly when it differs
    from the flag's default.  Writes performed are recorded alongside the
    updated registry;
  - validateConfig / initLogger / initConfig / the PersistentPreRun
    sequencing of root.go 41-63, with logger.Fatal modelled as a non-zero
    exit code and the filesystem abstracted to the facts initConfig branches
    on;
  - WithSignals (root.go 92-113) as a two-state machine driven by a sequence
    of events (parent-context cancellation, SIGINT, SIGTERM); the background
    goroutine consumes the first event only, logs which signal fired, and
    exits.
-/

namespace Falcoctl

/-- ASCII upper-casing of a character, as Go's strings.ToUpper acts on the
ASCII flag and prefix names involved here. -/
def upChar (c : Char) : Char :=
  if 97 ≤ c.toNat ∧ c.toNat ≤ 122 then Char.ofNat (c.toNat - 32) else c

/-- ASCII lower-casing of a character (viper lower-cases keys on entry). -/
def lowChar (c : Char) : Char :=
  if 65 ≤ c.toNat ∧ c.toNat ≤ 90 then Char.ofNat (c.toNat + 32) else c

/-- The character transformation of the replacer installed by initEnv:
strings.NewReplacer("-", "_"). -/
def dashChar (c : Char) : Char :=
  if c = '-' then '_' else c

/-- String upper-casing, character-wise. -/
def strUpper (s : String) : String := ⟨s.data.map upChar⟩

/-- String lower-casing, character-wise. -/
def strLower (s : String) : String := ⟨s.data.map lowChar⟩

/-- The replacer installed by initEnv (root.go line 129): every '-' becomes
'_'. -/
def dashToUnderscore (s : String) : String := ⟨s.data.map dashChar⟩

/-- The environment prefix set by initEnv (root.go line 128). -/
def envPrefix : String := "falcoctl"

/-- The environment variable consulted for a flag name: viper lower-cases
the key, mergeWithEnvPrefix produces ToUpper(prefix + "_" + key), and the
replacer from SetEnvKeyReplacer maps '-' to '_'. -/
def envVarName (name : String) : String :=
  dashToUnderscore (strUpper (envPrefix ++ "_" ++ strLower name))

/-- A registered command-line flag: pflag.Flag restricted to the fields the
resolution pass reads and writes (Name, DefValue, Value, Changed). -/
structure Flag where
  name : String
  defValue : String
  value : String
  changed : Bool
  deriving DecidableEq, Repr

/-- Well-formedness pflag guarantees at entry to the resolution pass: a flag
the command line did not set still holds its default value. -/
def wfFlag (f : Flag) : Prop := f.changed = false → f.value = f.defValue

instance (f : Flag) : Decidable (wfFlag f) := by
  unfold wfFlag; infer_instance

/-- pflag's FlagSet.Set: store the value and mark the flag as changed. -/
def pflagSet (f : Flag) (v : String) : Flag :=
  { f with value := v, changed := true }

/-- Environment layer lookup: the variable named envVarName(name). -/
def envLookup (env : List (String × String)) (name : String) : Option String :=
  env.lookup (envVarName name)

/-- Configuration-file layer lookup: viper stores and looks up config keys
case-insensitively (lower-cased). -/
def configLookup (cfg : List (String × String)) (name : String) : Option String :=
  cfg.lookup (strLower name)

/-- viper.GetString for a key bound to a pflag via BindPFlags, after
viper.SetDefault(name, DefValue): the documented precedence, highest first —
the flag value when the flag was explicitly set, else environment, else
config file, else the default (which initFlags registers as the flag's
DefValue).  This is the order the source documents at root.go 171-177. -/
def viperGetString (env cfg : List (String × String)) (f : Flag) : String :=
  if f.changed then f.value
  else
    match envLookup env f.name with
    | some v => v
    | none =>
      match configLookup cfg f.name with
      | some v => v
      | none => f.defValue

/-- Exclusion lookup: Go map indexing with a false zero value
(exclude[f.Name] in root.go line 181). -/
def isExcluded (ex : List (String × Bool)) (name : String) : Bool :=
  ((ex.lookup name).getD false)

/-- The exclusion map passed to initFlags (root.go 54-60); note that
"registryurl" is present but mapped to false, so it is not excluded. -/
def falcoctlExclude : List (String × Bool) :=
  [("config", true), ("loglevel", true), ("help", true), ("registryurl", false)]

/-- The body of initFlags' VisitAll callback (root.go 180-188) for one flag:
skip excluded names; otherwise register the default, resolve through viper,
and call flags.Set exactly when the resolved value differs from the flag's
default.  The second component records the write performed, if any. -/
def initFlagsStep (env cfg : List (String × String)) (ex : List (String × Bool))
    (f : Flag) : Flag × Option (String × String) :=
  if isExcluded ex f.name then (f, none)
  else
    let v := viperGetString env cfg f
    if v ≠ f.defValue then (pflagSet f v, some (f.name, v))
    else (f, none)

/-- initFlags (root.go 178-189): visit every flag in the set, returning the
updated registry together with the list of writes (flags.Set calls)
performed. -/
def initFlags (env cfg : List (String × String)) (ex : List (String × Bool)) :
    List Flag → List Flag × List (String × String)
  | [] => ([], [])
  | f :: fs =>
    let r := initFlagsStep env cfg ex f
    let rest := initFlags env cfg ex fs
    (r.1 :: rest.1, r.2.toList ++ rest.2)

/-- The fields collected by debugFlags (root.go 191-199): every flag whose
Changed marker is set, paired with its value. -/
def debugFields (reg : List Flag) : List (String × String) :=
  (reg.filter fun f => f.changed).map fun f => (f.name, f.value)

/-- debugFlags emits the collected fields at debug level. -/
def debugFlags (reg : List Flag) : String × List (String × String) :=
  ("debug", debugFields reg)

/-- validateConfig (root.go 116-123): its observable outcome given the error
list returned by ConfigOptions.Validate.  Every error is logged with
logger.Error, then logger.Fatal exits with status 1; an empty list logs
nothing and continues. -/
structure ValidateResult where
  logged : List String
  exitCode : Option Nat
  deriving DecidableEq, Repr

def validateConfig (errs : List String) : ValidateResult :=
  if errs.isEmpty then ⟨[], none⟩ else ⟨errs, some 1⟩

/-- initLogger (root.go 133-139): logger.ParseLevel failure is fatal
(exit 1), success continues. -/
def initLogger (logLevelOk : Bool) : Option Nat :=
  if logLevelOk then none else some 1

/-- The filesystem facts initConfig branches on: the home directory lookup,
whether a config file is found at the default search location and parses,
and whether an explicitly-named file can be read and parsed.  The decoded
key/value pairs stand in for the parsed YAML. -/
structure FileSystem where
  homeDir : Option String
  defaultFilePresent : Bool
  defaultFileOk : Bool
  defaultFileContents : List (String × String)
  explicitFileOk : Bool
  explicitFileContents : List (String × String)
  deriving DecidableEq, Repr

/-- Outcome of initConfig: a file was loaded, no file was found at the
default search path (viper.ConfigFileNotFoundError — ignored), or a fatal
exit. -/
inductive ConfigLoadResult where
  | loaded (file : String) (contents : List (String × String))
  | skipped
  | fatal (code : Nat)
  deriving DecidableEq, Repr

def configDir : String := ".falcoctl"

def configName : String := "config"

/-- initConfig (root.go 142-169).  With an explicit path viper.SetConfigFile
is used and viper does not search, so any read or parse failure (including a
missing file) is not a ConfigFileNotFoundError and is fatal.  With no
explicit path, a failed home-directory lookup is fatal; a missing file at
the default search location is a ConfigFileNotFoundError and is ignored; a
file that is present but fails to read or parse is fatal. -/
def initConfig (configFile : String) (fs : FileSystem) : ConfigLoadResult :=
  if configFile ≠ "" then
    if fs.explicitFileOk then .loaded configFile fs.explicitFileContents
    else .fatal 1
  else
    match fs.homeDir with
    | none => .fatal 1
    | some home =>
      if fs.defaultFilePresent then
        if fs.defaultFileOk then
          .loaded (home ++ "/" ++ configDir ++ "/" ++ configName) fs.defaultFileContents
        else .fatal 1
      else .skipped

/-- The key/value pairs the configuration file contributes to the store. -/
def configContribution : ConfigLoadResult → List (String × String)
  | .loaded _ contents => contents
  | _ => []

/-- Input to the PersistentPreRun sequence: the validation-error list
produced by ConfigOptions.Validate, whether the log level parses, the
--config value, the filesystem facts, the process environment, and the
flag registry produced by command-line parsing. -/
structure BootInput where
  validationErrs : List String
  logLevelOk : Bool
  configFile : String
  fs : FileSystem
  env : List (String × String)
  registry : List Flag

/-- Observable outcome of the PersistentPreRun sequence. -/
structure BootResult where
  loggedValidationErrors : List String
  exitCode : Option Nat
  configLoadAttempted : Bool
  envBound : Bool
  flagsResolved : Bool
  registry : List Flag
  debugTrace : Option (String × List (String × String))
  deriving DecidableEq

/-- The PersistentPreRun body (root.go 41-63): validateConfig, then
initLogger, then initConfig, then initEnv and initFlags, then debugFlags.
logger.Fatal aborts the sequence with exit code 1. -/
def persistentPreRun (inp : BootInput) : BootResult :=
  match validateConfig inp.validationErrs with
  | ⟨logged, some c⟩ =>
    { loggedValidationErrors := logged, exitCode := some c,
      configLoadAttempted := false, envBound := false, flagsResolved := false,
      registry := inp.registry, debugTrace := none }
  | ⟨_, none⟩ =>
    match initLogger inp.logLevelOk with
    | some c =>
      { loggedValidationErrors := [], exitCode := some c,
        configLoadAttempted := false, envBound := false, flagsResolved := false,
        registry := inp.registry, debugTrace := none }
    | none =>
      match initConfig inp.configFile inp.fs with
      | .fatal c =>
        { loggedValidationErrors := [], exitCode := some c,
          configLoadAttempted := true, envBound := false, flagsResolved := false,
          registry := inp.registry, debugTrace := none }
      | r =>
        let res := initFlags inp.env (configContribution r) falcoctlExclude inp.registry
        { loggedValidationErrors := [], exitCode := none,
          configLoadAttempted := true, envBound := true, flagsResolved := true,
          registry := res.1, debugTrace := some (debugFlags res.1) }

/-- The two states of the context returned by WithSignals. -/
inductive CtxState where
  | Active
  | Cancelled
  deriving DecidableEq, Repr

/-- The events the goroutine in WithSignals (root.go 97-111) selects on:
cancellation of the parent context, or delivery of SIGINT or SIGTERM. -/
inductive SigEvent where
  | parentCancel
  | sigint
  | sigterm
  deriving DecidableEq, Repr

/-- One event against the context state.  From the Active state any event
fires the select, whose deferred cancel moves the context to Cancelled.
After that the goroutine has exited; cancellation of a Go context is
permanent, so further events leave the state Cancelled. -/
def ctxStep : CtxState → SigEvent → CtxState
  | .Active, _ => .Cancelled
  | .Cancelled, _ => .Cancelled

/-- The context state after a sequence of events, starting Active. -/
def runEvents (events : List SigEvent) : CtxState :=
  events.foldl ctxStep .Active

/-- The number of state transitions along an event sequence. -/
def countTransitions : CtxState → List SigEvent → Nat
  | _, [] => 0
  | s, e :: es =>
    (if ctxStep s e ≠ s then 1 else 0) + countTransitions (ctxStep s e) es

/-- The log line the goroutine's switch emits for the event that fired
(root.go 103-108); parent cancellation returns without logging. -/
def signalLog : SigEvent → List String
  | .parentCancel => []
  | .sigint => ["received SIGINT"]
  | .sigterm => ["received SIGTERM"]

/-- The goroutine's total output: it blocks on one select, handles the first
event, and returns — later events are never consumed. -/
def goroutineLogs : List SigEvent → List String
  | [] => []
  | e :: _ => signalLog e

/-- A concrete non-excluded flag, as the spec's example: option
registry-url with default "" and no command-line value. -/
def demoFlag : Flag :=
  { name := "registry-url", defValue := "", value := "", changed := false }

/-- A concrete environment containing the matching variable for demoFlag. -/
def demoEnv : List (String × String) :=
  [("FALCOCTL_REGISTRY_URL", "https://example.test")]

/-- The loglevel flag at its default, an excluded option. -/
def logFlag : Flag :=
  { name := "loglevel", defValue := "info", value := "info", changed := false }

/-- An environment and a config layer that both carry entries matching the
excluded loglevel option. -/
def logEnv : List (String × String) := [("FALCOCTL_LOGLEVEL", "debug")]

def logCfg : List (String × String) := [("loglevel", "trace")]

theorem char_toNat_ofNat_valid (n : Nat) (h : n < 55296) : (Char.ofNat n).toNat = n := by
  have hv : n.isValidChar := Or.inl h
  simp [Char.ofNat, hv, Char.ofNatAux, Char.toNat, UInt32.toNat, BitVec.toNat_ofNatLt]

theorem upChar_lowChar (c : Char) : upChar (lowChar c) = upChar c := by
  unfold upChar lowChar
  by_cases h : 65 ≤ c.toNat ∧ c.toNat ≤ 90
  · rw [if_pos h]
    have h32 : (Char.ofNat (c.toNat + 32)).toNat = c.toNat + 32 :=
      char_toNat_ofNat_valid _ (by omega)
    rw [h32]
    rw [if_pos (by omega : 97 ≤ c.toNat + 32 ∧ c.toNat + 32 ≤ 122)]
    rw [if_neg (by omega : ¬(97 ≤ c.toNat ∧ c.toNat ≤ 122))]
    have he : c.toNat + 32 - 32 = c.toNat := by omega
    rw [he, Char.ofNat_toNat]
  · rw [if_neg h]

theorem string_data_append (s t : String) : (s ++ t).data = s.data ++ t.data := by
  cases s; cases t; rfl

theorem strLower_data (s : String) : (strLower s).data = s.data.map lowChar := rfl

/-- Staged unfolding of envVarName: the fixed prefix contributes the literal
prefix of the variable name, and the flag name goes through lower-casing,
upper-casing and dash replacement character by character. -/
theorem envVarName_eq (s : String) :
    envVarName s =
      ⟨"FALCOCTL_".data ++ ((s.data.map lowChar).map upChar).map dashChar⟩ := by
  unfold envVarName dashToUnderscore strUpper envPrefix
  rw [string_data_append, string_data_append, strLower_data]
  rw [List.map_append, List.map_append, List.map_append, List.map_append]
  have hpre :
      (("falcoctl".data.map upChar).map dashChar) ++ (("_".data.map upChar).map dashChar) =
        "FALCOCTL_".data := by decide
  rw [← hpre]

/-- C8: the environment variable consulted for an option name is the fixed
uppercase prefix FALCOCTL_ followed by the option name with every dash
transliterated to an underscore (the name itself upper-cased, matching the
spec's APP_LOG_LEVEL example), and the lookup is case-insensitive in the
option name: two names equal up to letter case consult the same variable. -/
theorem env_var_transliteration :
    (∀ name : String,
        envVarName name = "FALCOCTL_" ++ dashToUnderscore (strUpper name)) ∧
    (∀ s t : String, strLower s = strLower t → envVarName s = envVarName t) := by
  constructor
  · intro name
    apply String.ext
    rw [envVarName_eq, string_data_append]
    show "FALCOCTL_".data ++ ((name.data.map lowChar).map upChar).map dashChar =
      "FALCOCTL_".data ++ (name.data.map upChar).map dashChar
    rw [List.map_map, List.map_map, List.map_map]
    have hfun : (dashChar ∘ upChar) ∘ lowChar = dashChar ∘ upChar := by
      funext c
      show dashChar (upChar (lowChar c)) = dashChar (upChar c)
      exact congrArg dashChar (upChar_lowChar c)
    rw [hfun]
  · intro s t h
    have hd : s.data.map lowChar = t.data.map lowChar := by
      have := congrArg String.data h
      rwa [strLower_data, strLower_data] at this
    rw [envVarName_eq, envVarName_eq, hd]

theorem env_var_transliteration_witness :
    envVarName "log-level" = "FALCOCTL_" ++ dashToUnderscore (strUpper "log-level") ∧
    (strLower "Log-Level" = strLower "log-level" ∧
      envVarName "Log-Level" = envVarName "log-level") :=
  ⟨env_var_transliteration.1 "log-level",
    by decide,
    env_var_transliteration.2 "Log-Level" "log-level" (by decide)⟩

theorem initFlags_cons (env cfg : List (String × String)) (ex : List (String × Bool))
    (f : Flag) (fs : List Flag) :
    initFlags env cfg ex (f :: fs) =
      ((initFlagsStep env cfg ex f).1 :: (initFlags env cfg ex fs).1,
        (initFlagsStep env cfg ex f).2.toList ++ (initFlags env cfg ex fs).2) := rfl

theorem initFlags_mem {env cfg : List (String × String)} {ex : List (String × Bool)}
    {reg : List Flag} {f : Flag} (h : f ∈ reg) :
    (initFlagsStep env cfg ex f).1 ∈ (initFlags env cfg ex reg).1 := by
  induction reg with
  | nil => cases h
  | cons g gs ih =>
    rw [initFlags_cons]
    rcases List.mem_cons.mp h with rfl | h
    · exact List.mem_cons_self _ _
    · exact List.mem_cons_of_mem _ (ih h)

theorem initFlags_out {env cfg : List (String × String)} {ex : List (String × Bool)}
    {reg : List Flag} {f' : Flag} (h : f' ∈ (initFlags env cfg ex reg).1) :
    ∃ f ∈ reg, f' = (initFlagsStep env cfg ex f).1 := by
  induction reg with
  | nil => cases h
  | cons g gs ih =>
    rw [initFlags_cons] at h
    rcases List.mem_cons.mp h with rfl | h
    · exact ⟨g, List.mem_cons_self _ _, rfl⟩
    · obtain ⟨f, hf, he⟩ := ih h
      exact ⟨f, List.mem_cons_of_mem _ hf, he⟩

theorem initFlagsStep_excluded {env cfg : List (String × String)}
    {ex : List (String × Bool)} {f : Flag} (h : isExcluded ex f.name = true) :
    initFlagsStep env cfg ex f = (f, none) := by
  unfold initFlagsStep
  rw [h]
  rfl

theorem initFlagsStep_write {env cfg : List (String × String)}
    {ex : List (String × Bool)} {f : Flag} (hex : isExcluded ex f.name = false)
    (hv : viperGetString env cfg f ≠ f.defValue) :
    initFlagsStep env cfg ex f =
      (pflagSet f (viperGetString env cfg f),
        some (f.name, viperGetString env cfg f)) := by
  unfold initFlagsStep
  rw [hex]
  simp only [Bool.false_eq_true, if_false, ne_eq, hv, not_false_eq_true, if_pos]

theorem initFlagsStep_nowrite {env cfg : List (String × String)}
    {ex : List (String × Bool)} {f : Flag} (hex : isExcluded ex f.name = false)
    (hv : viperGetString env cfg f = f.defValue) :
    initFlagsStep env cfg ex f = (f, none) := by
  unfold initFlagsStep
  rw [hex]
  simp only [Bool.false_eq_true, if_false, ne_eq, hv, not_true_eq_false, if_neg,
    not_false_eq_true]

theorem viperGetString_changed {env cfg : List (String × String)} {f : Flag}
    (h : f.changed = true) : viperGetString env cfg f = f.value := by
  unfold viperGetString
  rw [h]
  rfl

theorem initFlagsStep_value {env cfg : List (String × String)}
    {ex : List (String × Bool)} {f : Flag} (hex : isExcluded ex f.name = false)
    (hwf : wfFlag f) :
    (initFlagsStep env cfg ex f).1.value = viperGetString env cfg f := by
  by_cases hv : viperGetString env cfg f = f.defValue
  · rw [initFlagsStep_nowrite hex hv, hv]
    cases hc : f.changed with
    | false => exact hwf hc
    | true => rw [← hv, viperGetString_changed hc]
  · rw [initFlagsStep_write hex hv]
    rfl

/-- C1: for every non-excluded option in the registry, the value the
resolution pass leaves in the registry follows the precedence order,
highest first: the command-line value when the flag was explicitly set,
otherwise the matching environment variable, otherwise the
configuration-file entry, otherwise the compiled-in default. -/
theorem resolved_value_follows_precedence (env cfg : List (String × String))
    (ex : List (String × Bool)) (reg : List Flag) (f : Flag) (hmem : f ∈ reg)
    (hex : isExcluded ex f.name = false) (hwf : wfFlag f) :
    (initFlagsStep env cfg ex f).1 ∈ (initFlags env cfg ex reg).1 ∧
    (initFlagsStep env cfg ex f).1.value =
      (if f.changed then f.value
       else
         match envLookup env f.name with
         | some v => v
         | none =>
           match configLookup cfg f.name with
           | some v => v
           | none => f.defValue) := by
  refine ⟨initFlags_mem hmem, ?_⟩
  rw [initFlagsStep_value hex hwf]
  rfl

theorem resolved_value_follows_precedence_witness :
    demoFlag ∈ [demoFlag] ∧ isExcluded falcoctlExclude demoFlag.name = false ∧
    wfFlag demoFlag ∧
    ((initFlagsStep demoEnv [] falcoctlExclude demoFlag).1 ∈
        (initFlags demoEnv [] falcoctlExclude [demoFlag]).1 ∧
      (initFlagsStep demoEnv [] falcoctlExclude demoFlag).1.value =
        (if demoFlag.changed then demoFlag.value
         else
           match envLookup demoEnv demoFlag.name with
           | some v => v
           | none =>
             match configLookup [] demoFlag.name with
             | some v => v
             | none => demoFlag.defValue)) :=
  ⟨by decide, by decide, by decide,
    resolved_value_follows_precedence demoEnv [] falcoctlExclude [demoFlag] demoFlag
      (by decide) (by decide) (by decide)⟩

/-- C2: an option in the exclusion set (config, loglevel, help) is returned
unchanged by the resolution step, whatever the environment and file layers
contain; its value is the command-line value when the flag was set and the
compiled default otherwise. -/
theorem excluded_options_keep_cmdline_or_default (env cfg : List (String × String))
    (f : Flag)
    (hname : f.name = "config" ∨ f.name = "loglevel" ∨ f.name = "help")
    (hwf : wfFlag f) :
    initFlagsStep env cfg falcoctlExclude f = (f, none) ∧
    (f.changed = true → (initFlagsStep env cfg falcoctlExclude f).1.value = f.value) ∧
    (f.changed = false →
      (initFlagsStep env cfg falcoctlExclude f).1.value = f.defValue) := by
  have hex : isExcluded falcoctlExclude f.name = true := by
    rcases hname with h | h | h <;> rw [h] <;> decide
  refine ⟨initFlagsStep_excluded hex, ?_, ?_⟩
  · intro _
    rw [initFlagsStep_excluded hex]
  · intro hc
    rw [initFlagsStep_excluded hex]
    exact hwf hc

theorem excluded_options_keep_cmdline_or_default_witness :
    (logFlag.name = "config" ∨ logFlag.name = "loglevel" ∨ logFlag.name = "help") ∧
    wfFlag logFlag ∧
    (initFlagsStep logEnv logCfg falcoctlExclude logFlag = (logFlag, none) ∧
      (logFlag.changed = true →
        (initFlagsStep logEnv logCfg falcoctlExclude logFlag).1.value = logFlag.value) ∧
      (logFlag.changed = false →
        (initFlagsStep logEnv logCfg falcoctlExclude logFlag).1.value =
          logFlag.defValue)) :=
  ⟨by decide, by decide,
    excluded_options_keep_cmdline_or_default logEnv logCfg logFlag (by decide) (by decide)⟩

/-- C7: for a non-excluded option, the resolution step performs a write-back
if and only if the resolved value differs from the flag's compiled default;
when they differ the write stores exactly the resolved value and marks the
flag, and when they coincide the flag is returned untouched (in particular
its changed marker is not set by the pass). -/
theorem writeback_iff_resolved_nondefault (env cfg : List (String × String))
    (ex : List (String × Bool)) (f : Flag) (hex : isExcluded ex f.name = false) :
    ((initFlagsStep env cfg ex f).2 ≠ none ↔
      viperGetString env cfg f ≠ f.defValue) ∧
    (viperGetString env cfg f = f.defValue →
      initFlagsStep env cfg ex f = (f, none)) ∧
    (viperGetString env cfg f ≠ f.defValue →
      initFlagsStep env cfg ex f =
        (pflagSet f (viperGetString env cfg f),
          some (f.name, viperGetString env cfg f))) := by
  refine ⟨?_, initFlagsStep_nowrite hex, initFlagsStep_write hex⟩
  constructor
  · intro hw
    intro hv
    rw [initFlagsStep_nowrite hex hv] at hw
    exact hw rfl
  · intro hv
    rw [initFlagsStep_write hex hv]
    simp

theorem writeback_iff_resolved_nondefault_witness :
    isExcluded falcoctlExclude demoFlag.name = false ∧
    (((initFlagsStep demoEnv [] falcoctlExclude demoFlag).2 ≠ none ↔
        viperGetString demoEnv [] demoFlag ≠ demoFlag.defValue) ∧
      (viperGetString demoEnv [] demoFlag = demoFlag.defValue →
        initFlagsStep demoEnv [] falcoctlExclude demoFlag = (demoFlag, none)) ∧
      (viperGetString demoEnv [] demoFlag ≠ demoFlag.defValue →
        initFlagsStep demoEnv [] falcoctlExclude demoFlag =
          (pflagSet demoFlag (viperGetString demoEnv [] demoFlag),
            some (demoFlag.name, viperGetString demoEnv [] demoFlag)))) :=
  ⟨by decide,
    writeback_iff_resolved_nondefault demoEnv [] falcoctlExclude demoFlag (by decide)⟩

/-- C10: a non-excluded option that the command line did not set, whose
resolved (environment- or file-derived) value differs from its default, is
written back marked as changed, and the resulting registry entry is
identical to the one an explicit command-line setting of the same value
would produce — downstream readers cannot tell the two apart. -/
theorem env_derived_value_indistinguishable (env cfg : List (String × String))
    (ex : List (String × Bool)) (f : Flag) (v : String)
    (hex : isExcluded ex f.name = false) (_hch : f.changed = false)
    (hv : viperGetString env cfg f = v) (hne : v ≠ f.defValue) :
    (initFlagsStep env cfg ex f).1 = { f with value := v, changed := true } ∧
    (initFlagsStep env cfg ex f).1 =
      (initFlagsStep env cfg ex { f with value := v, changed := true }).1 := by
  have h1 : (initFlagsStep env cfg ex f).1 = { f with value := v, changed := true } := by
    rw [initFlagsStep_write hex (by rw [hv]; exact hne), hv]
    rfl
  refine ⟨h1, ?_⟩
  have hv2 : viperGetString env cfg { f with value := v, changed := true } = v :=
    viperGetString_changed rfl
  have h2 : (initFlagsStep env cfg ex { f with value := v, changed := true }).1 =
      { f with value := v, changed := true } := by
    rw [initFlagsStep_write (f := { f with value := v, changed := true }) hex
      (by rw [hv2]; exact hne), hv2]
    rfl
  rw [h1, h2]

theorem env_derived_value_indistinguishable_witness :
    isExcluded falcoctlExclude demoFlag.name = false ∧ demoFlag.changed = false ∧
    viperGetString demoEnv [] demoFlag = "https://example.test" ∧
    ("https://example.test" ≠ demoFlag.defValue) ∧
    ((initFlagsStep demoEnv [] falcoctlExclude demoFlag).1 =
        { demoFlag with value := "https://example.test", changed := true } ∧
      (initFlagsStep demoEnv [] falcoctlExclude demoFlag).1 =
        (initFlagsStep demoEnv [] falcoctlExclude
          { demoFlag with value := "https://example.test", changed := true }).1) :=
  ⟨by decide, by decide, by decide, by decide,
    env_derived_value_indistinguishable demoEnv [] falcoctlExclude demoFlag
      "https://example.test" (by decide) (by decide) (by decide) (by decide)⟩

/-- C6 counterexample: re-running the resolution pass does perform writes.
With option registry-url (default "") resolved from the environment, the
first pass writes the environment value and marks the flag changed; on the
second pass viper returns the flag's own value, which still differs from the
default, so flags.Set is called again — the write list of the second pass is
not empty. -/
theorem rerun_resolution_writes_again :
    (initFlags demoEnv [] falcoctlExclude
        (initFlags demoEnv [] falcoctlExclude [demoFlag]).1).2 ≠ [] := by
  decide

theorem initFlagsStep_idem (env cfg : List (String × String))
    (ex : List (String × Bool)) (f : Flag) :
    (initFlagsStep env cfg ex (initFlagsStep env cfg ex f).1).1 =
      (initFlagsStep env cfg ex f).1 := by
  by_cases hex : isExcluded ex f.name = true
  · rw [initFlagsStep_excluded hex, initFlagsStep_excluded hex]
  · have hex' : isExcluded ex f.name = false := by
      cases h : isExcluded ex f.name
      · rfl
      · exact absurd h hex
    by_cases hv : viperGetString env cfg f = f.defValue
    · rw [initFlagsStep_nowrite hex' hv, initFlagsStep_nowrite hex' hv]
    · rw [initFlagsStep_write hex' hv]
      have hv2 : viperGetString env cfg (pflagSet f (viperGetString env cfg f)) =
          viperGetString env cfg f := viperGetString_changed rfl
      rw [initFlagsStep_write (f := pflagSet f (viperGetString env cfg f)) hex'
        (by rw [hv2]; exact hv), hv2]
      rfl

/-- C6 amended: running the precedence-resolution pass a second time against
an already-resolved registry, with no change to the sources, leaves the
registry state unchanged — every value and changed marker is identical —
although the pass does re-issue a write (of the value already in place) for
each non-excluded option whose value differs from its default. -/
theorem rerun_resolution_leaves_state_unchanged (env cfg : List (String × String))
    (ex : List (String × Bool)) (reg : List Flag) :
    (initFlags env cfg ex (initFlags env cfg ex reg).1).1 =
      (initFlags env cfg ex reg).1 := by
  induction reg with
  | nil => rfl
  | cons f fs ih =>
    rw [initFlags_cons, initFlags_cons, initFlagsStep_idem, ih]

theorem runEvents_cancelled (es : List SigEvent) :
    es.foldl ctxStep CtxState.Cancelled = CtxState.Cancelled := by
  induction es with
  | nil => rfl
  | cons e es ih => exact ih

theorem countTransitions_cancelled (es : List SigEvent) :
    countTransitions CtxState.Cancelled es = 0 := by
  induction es with
  | nil => rfl
  | cons e es ih =>
    unfold countTransitions
    simpa [ctxStep] using ih

/-- C5: the signal-aware context is a two-state machine.  It starts Active
(no events: state Active); any first event — parent cancellation, SIGINT or
SIGTERM — moves it to Cancelled; along any non-empty event sequence exactly
one transition happens; and events after the first change neither the state
nor the goroutine's output, since the goroutine handles one event and
exits. -/
theorem signal_context_cancels_once (e : SigEvent) (es : List SigEvent) :
    runEvents [] = CtxState.Active ∧
    runEvents (e :: es) = CtxState.Cancelled ∧
    countTransitions CtxState.Active (e :: es) = 1 ∧
    runEvents (e :: es) = runEvents [e] ∧
    goroutineLogs (e :: es) = goroutineLogs [e] := by
  refine ⟨rfl, ?_, ?_, ?_, rfl⟩
  · show (e :: es).foldl ctxStep CtxState.Active = CtxState.Cancelled
    rw [List.foldl_cons]
    cases e <;> exact runEvents_cancelled es
  · unfold countTransitions
    cases e <;> simp [ctxStep, countTransitions_cancelled]
  · show (e :: es).foldl ctxStep CtxState.Active = runEvents [e]
    rw [List.foldl_cons]
    cases e <;> exact runEvents_cancelled es

/-- C3: when validation returns a non-empty error list, the boot sequence
logs every error in the list, exits with the non-zero status 1, and neither
the configuration file load, nor the environment binding, nor the flag
resolution is reached. -/
theorem validation_errors_abort_boot (inp : BootInput)
    (h : inp.validationErrs ≠ []) :
    (persistentPreRun inp).loggedValidationErrors = inp.validationErrs ∧
    (persistentPreRun inp).exitCode = some 1 ∧
    (persistentPreRun inp).configLoadAttempted = false ∧
    (persistentPreRun inp).envBound = false ∧
    (persistentPreRun inp).flagsResolved = false := by
  have hv : validateConfig inp.validationErrs = ⟨inp.validationErrs, some 1⟩ := by
    unfold validateConfig
    rw [if_neg]
    simpa [List.isEmpty_iff] using h
  unfold persistentPreRun
  rw [hv]
  exact ⟨rfl, rfl, rfl, rfl, rfl⟩

def demoFs : FileSystem :=
  { homeDir := some "/home/user", defaultFilePresent := false,
    defaultFileOk := false, defaultFileContents := [],
    explicitFileOk := true, explicitFileContents := [] }

def badBoot : BootInput :=
  { validationErrs := ["config file path must be absolute"], logLevelOk := true,
    configFile := "", fs := demoFs, env := [], registry := [demoFlag] }

theorem validation_errors_abort_boot_witness :
    badBoot.validationErrs ≠ [] ∧
    ((persistentPreRun badBoot).loggedValidationErrors = badBoot.validationErrs ∧
      (persistentPreRun badBoot).exitCode = some 1 ∧
      (persistentPreRun badBoot).configLoadAttempted = false ∧
      (persistentPreRun badBoot).envBound = false ∧
      (persistentPreRun badBoot).flagsResolved = false) :=
  ⟨by decide, validation_errors_abort_boot badBoot (by decide)⟩

/-- C4: configuration-file loading distinguishes its outcomes.  With no
explicit path, a working home-directory lookup and no file at the default
search location, loading is skipped without error and contributes no values
to the store; a file present at the default location that fails to read or
parse is fatal; and with an explicit path, any failure to read or parse the
named file is fatal. -/
theorem config_file_load_outcomes (cf : String) (fs : FileSystem) (home : String) :
    (cf = "" → fs.homeDir = some home → fs.defaultFilePresent = false →
      initConfig cf fs = ConfigLoadResult.skipped ∧
      configContribution (initConfig cf fs) = []) ∧
    (cf = "" → fs.homeDir = some home → fs.defaultFilePresent = true →
      fs.defaultFileOk = false → initConfig cf fs = ConfigLoadResult.fatal 1) ∧
    (cf ≠ "" → fs.explicitFileOk = false →
      initConfig cf fs = ConfigLoadResult.fatal 1) := by
  refine ⟨?_, ?_, ?_⟩
  · intro hcf hh hp
    have : initConfig cf fs = ConfigLoadResult.skipped := by
      unfold initConfig
      rw [hcf, hh]
      simp [hp]
    exact ⟨this, by rw [this]; rfl⟩
  · intro hcf hh hp hok
    unfold initConfig
    rw [hcf, hh]
    simp [hp, hok]
  · intro hcf hok
    unfold initConfig
    simp [hcf, hok]

def fsBadDefault : FileSystem :=
  { homeDir := some "/home/user", defaultFilePresent := true,
    defaultFileOk := false, defaultFileContents := [],
    explicitFileOk := true, explicitFileContents := [] }

def fsBadExplicit : FileSystem :=
  { homeDir := some "/home/user", defaultFilePresent := false,
    defaultFileOk := false, defaultFileContents := [],
    explicitFileOk := false, explicitFileContents := [] }

theorem config_file_load_outcomes_witness :
    (initConfig "" demoFs = ConfigLoadResult.skipped ∧
      configContribution (initConfig "" demoFs) = []) ∧
    initConfig "" fsBadDefault = ConfigLoadResult.fatal 1 ∧
    initConfig "/etc/falcoctl/config.yaml" fsBadExplicit = ConfigLoadResult.fatal 1 :=
  ⟨(config_file_load_outcomes "" demoFs "/home/user").1 rfl rfl rfl,
    (config_file_load_outcomes "" fsBadDefault "/home/user").2.1 rfl rfl rfl rfl,
    (config_file_load_outcomes "/etc/falcoctl/config.yaml" fsBadExplicit
      "/home/user").2.2 (by decide) rfl⟩

theorem initFlagsStep_wf (env cfg : List (String × String))
    (ex : List (String × Bool)) (f : Flag) (h : wfFlag f) :
    wfFlag (initFlagsStep env cfg ex f).1 := by
  by_cases hex : isExcluded ex f.name = true
  · rw [initFlagsStep_excluded hex]
    exact h
  · have hex' : isExcluded ex f.name = false := by
      cases hc : isExcluded ex f.name
      · rfl
      · exact absurd hc hex
    by_cases hv : viperGetString env cfg f = f.defValue
    · rw [initFlagsStep_nowrite hex' hv]
      exact h
    · rw [initFlagsStep_write hex' hv]
      intro hc
      cases hc

/-- C9: after the resolution pass, the debug-level trace contains an entry
for every option whose final value differs from its compiled default, paired
with that final value. -/
theorem debug_trace_lists_nondefault (env cfg : List (String × String))
    (ex : List (String × Bool)) (reg : List Flag)
    (hwf : ∀ f ∈ reg, wfFlag f) :
    (debugFlags (initFlags env cfg ex reg).1).1 = "debug" ∧
    ∀ f' ∈ (initFlags env cfg ex reg).1, f'.value ≠ f'.defValue →
      (f'.name, f'.value) ∈ (debugFlags (initFlags env cfg ex reg).1).2 := by
  refine ⟨rfl, ?_⟩
  intro f' hmem hne
  have hwf' : wfFlag f' := by
    obtain ⟨f, hf, rfl⟩ := initFlags_out hmem
    exact initFlagsStep_wf env cfg ex f (hwf f hf)
  have hch : f'.changed = true := by
    cases hc : f'.changed
    · exact absurd (hwf' hc) hne
    · rfl
  show (f'.name, f'.value) ∈ debugFields (initFlags env cfg ex reg).1
  unfold debugFields
  exact List.mem_map_of_mem _ (List.mem_filter.mpr ⟨hmem, by rw [hch]⟩)

theorem debug_trace_lists_nondefault_witness :
    (∀ f ∈ [demoFlag], wfFlag f) ∧
    ("registry-url", "https://example.test") ∈
      (debugFlags (initFlags demoEnv [] falcoctlExclude [demoFlag]).1).2 :=
  ⟨by decide,
    (debug_trace_lists_nondefault demoEnv [] falcoctlExclude [demoFlag]
        (by decide)).2
      { name := "registry-url", defValue := "", value := "https://example.test",
        changed := true }
      (by decide) (by decide)⟩

end Falcoctl
